import Mathlib

/-!
# Instrumentation bootstrap (package opentelemetry, file azugo.go)

A shallow embedding of the two exported functions of azugo.go, Use and
FromContext, together with the noop lifecycle declared in the same file.

Go values that the file only passes around (providers, options, contexts) are
handles.  Go functions that the file calls but does not define are either
fields of Deps (when their result decides the control flow of Use) or symbolic
constructors (when Use only stores their result).  Process-wide registrations
and the application object are explicit state, and every call to a collaborator
that Use makes is appended to a call record.
-/

namespace Opentelemetry

/-- Go error value; a nil error is the absent option. -/
structure Error where
  msg : String
deriving DecidableEq

/-- Handle of a context.Context value. -/
structure Context where
  id : Nat
deriving DecidableEq

/-- Handle of a variadic Option value handed to Use. -/
structure Opt where
  id : Nat
deriving DecidableEq

/-- Fields of Configuration other than TraceLogging.  Use never reads them; it
only forwards the whole configuration to its collaborators. -/
structure Settings where
  code : Nat
deriving DecidableEq

/-- Zero value of every field of Configuration other than TraceLogging. -/
def Settings.zero : Settings := ⟨0⟩

/-- Configuration as far as azugo.go reads it: the TraceLogging flag, and the
remaining fields kept as one component. -/
structure Configuration where
  TraceLogging : Bool
  settings : Settings
deriving DecidableEq

/-- Handle of a tracing provider. -/
structure TraceProvider where
  id : Nat
deriving DecidableEq

/-- Handle of a logging provider. -/
structure LogProvider where
  id : Nat
deriving DecidableEq

/-- Text map propagator: the value of newPropagator(), or some other one
registered earlier. -/
inductive Propagator where
  | newPropagator
  | other (id : Nat)
deriving DecidableEq

/-- Panic handler of the router: the package function panicHandler, or whatever
the host had before. -/
inductive PanicHandler where
  | panicHandler
  | other (id : Nat)
deriving DecidableEq

/-- Request middleware: the value of middleware(config, opts...), or one
installed by somebody else. -/
inductive Middleware where
  | middleware (config : Configuration) (opts : List Opt)
  | other (id : Nat)
deriving DecidableEq

/-- Instrumentation hook: the value of instr(opts...), or one installed by
somebody else. -/
inductive Instrumenter where
  | instr (opts : List Opt)
  | other (id : Nat)
deriving DecidableEq

/-- Router options of the application; Use assigns the PanicHandler field. -/
structure RouterOptions where
  PanicHandler : PanicHandler
deriving DecidableEq

/-- State of the azugo application object that Use touches.  app.Use and
app.Instrumentation register at the end of their lists; logBridge stands for
whatever setupOTelLogging changes. -/
structure App where
  routerOptions : RouterOptions
  middlewares : List Middleware
  instrumenters : List Instrumenter
  logBridge : Nat
deriving DecidableEq

/-- Shutdown function: the method value Shutdown bound to its provider. -/
inductive ShutdownFn where
  | traceProvider (p : TraceProvider)
  | logProvider (p : LogProvider)
deriving DecidableEq

/-- Calls to collaborators that are recorded. -/
inductive Call where
  | newTraceProvider
  | newLogProvider
  | setupOTelLogging
  | shutdown (fn : ShutdownFn)
deriving DecidableEq

/-- Process-wide registrations of the otel packages. -/
structure Globals where
  propagator : Propagator
  tracerProvider : TraceProvider
  loggerProvider : LogProvider
deriving DecidableEq

/-- Process state: the global registrations, the record of collaborator calls
in the order they were made, and the shutdown errors reported so far. -/
structure Process where
  globals : Globals
  calls : List Call
  reported : List Error
deriving DecidableEq

/-- Append one call to the record. -/
def Process.record (p : Process) (c : Call) : Process :=
  { p with calls := p.calls ++ [c] }

/-- Effect of global.SetLoggerProvider. -/
def Process.SetLoggerProvider (p : Process) (lp : LogProvider) : Process :=
  { p with globals := { p.globals with loggerProvider := lp } }

/-- Effect of otel.SetTextMapPropagator. -/
def Process.SetTextMapPropagator (p : Process) (pr : Propagator) : Process :=
  { p with globals := { p.globals with propagator := pr } }

/-- Effect of otel.SetTracerProvider. -/
def Process.SetTracerProvider (p : Process) (tp : TraceProvider) : Process :=
  { p with globals := { p.globals with tracerProvider := tp } }

/-- Effect of the assignment app.RouterOptions().PanicHandler = h. -/
def App.setPanicHandler (app : App) (h : PanicHandler) : App :=
  { app with routerOptions := { app.routerOptions with PanicHandler := h } }

/-- Effect of app.Use(m). -/
def App.Use (app : App) (m : Middleware) : App :=
  { app with middlewares := app.middlewares ++ [m] }

/-- Effect of app.Instrumentation(i). -/
def App.Instrumentation (app : App) (i : Instrumenter) : App :=
  { app with instrumenters := app.instrumenters ++ [i] }

/-- Functions that Use calls and azugo.go does not define: the IsDisabled
method of Configuration, the two provider constructors, and the effect of
setupOTelLogging on the application. -/
structure Deps where
  IsDisabled : Configuration → Bool
  newTraceProvider : App → Configuration → Except Error TraceProvider
  newLogProvider : App → Configuration → Except Error LogProvider
  setupOTelLogging : App → App

/-- The setup struct literal that Use returns on success. -/
structure Setup where
  app : App
  config : Configuration
  shutdownFns : List ShutdownFn
deriving DecidableEq

/-- The two core.Tasker values Use can return. -/
inductive Tasker where
  | noop
  | setup (s : Setup)
deriving DecidableEq

/-- What a call of Use leaves behind: the returned pair (a nil tasker or a nil
error is the absent option), the application and the process state. -/
structure UseResult where
  tasker : Option Tasker
  err : Option Error
  app : App
  proc : Process
deriving DecidableEq

/-- Use, lines 16 to 65 of azugo.go. -/
def Use (d : Deps) (app : App) (config : Option Configuration) (opts : List Opt)
    (p : Process) : UseResult :=
  let shutdownFns : List ShutdownFn := []
  let config : Configuration :=
    match config with
    | none => { TraceLogging := true, settings := Settings.zero }
    | some c => c
  if d.IsDisabled config then
    { tasker := some Tasker.noop, err := none, app := app, proc := p }
  else
    let p := p.record Call.newTraceProvider
    match d.newTraceProvider app config with
    | Except.error err => { tasker := none, err := some err, app := app, proc := p }
    | Except.ok traceProvider =>
      let shutdownFns := shutdownFns ++ [ShutdownFn.traceProvider traceProvider]
      let logging : Except (Error × Process) (List ShutdownFn × App × Process) :=
        if config.TraceLogging then
          let p := p.record Call.newLogProvider
          match d.newLogProvider app config with
          | Except.error err => Except.error (err, p)
          | Except.ok logProvider =>
            let shutdownFns := shutdownFns ++ [ShutdownFn.logProvider logProvider]
            let p := p.SetLoggerProvider logProvider
            let p := p.record Call.setupOTelLogging
            let app := d.setupOTelLogging app
            Except.ok (shutdownFns, app, p)
        else
          Except.ok (shutdownFns, app, p)
      match logging with
      | Except.error (err, p) => { tasker := none, err := some err, app := app, proc := p }
      | Except.ok (shutdownFns, app, p) =>
        let p := p.SetTextMapPropagator Propagator.newPropagator
        let p := p.SetTracerProvider traceProvider
        let app := app.setPanicHandler PanicHandler.panicHandler
        let app := app.Use (Middleware.middleware config opts)
        let app := app.Instrumentation (Instrumenter.instr opts)
        { tasker := some (Tasker.setup
            { app := app, config := config, shutdownFns := shutdownFns }),
          err := none, app := app, proc := p }

/-- Name of the noop lifecycle, line 88. -/
def noop.Name : String := "Open Telemetry"

/-- Start of the noop lifecycle, line 92: returns a nil error. -/
def noop.Start (_ctx : Context) : Option Error := none

/-- Stop of the noop lifecycle, line 96: an empty body, so the application and
the process state come back as they went in. -/
def noop.Stop (app : App) (p : Process) : App × Process := (app, p)

/-- Value held in the per-request user-value store, as FromContext tells them
apart: nil (also what the host returns for a missing key), a context, or a
value of any other dynamic type. -/
inductive Value where
  | nil
  | context (c : Context)
  | other (tag : Nat)
deriving DecidableEq

/-- Request object of the host framework, as far as FromContext reads it. -/
structure RequestCtx where
  UserValue : String → Value

/-- Host state that FromContext reads: how azugo.RequestContext resolves a
context to a request object (nil is the absent option), and the package
constant otelParentSpanContext, which azugo.go uses and does not declare. -/
structure Host where
  RequestContext : Context → Option RequestCtx
  otelParentSpanContext : String

/-- FromContext, lines 67 to 84 of azugo.go. -/
def FromContext (h : Host) (ctx : Context) : Context :=
  match h.RequestContext ctx with
  | none => ctx
  | some c =>
    match c.UserValue h.otelParentSpanContext with
    | Value.nil => ctx
    | Value.other _ => ctx
    | Value.context sc => sc

/-- Loop of Stop over the shutdown list: each function is invoked in turn and
a returned error is kept, never ending the loop. -/
def Setup.stopLoop (run : ShutdownFn → Option Error) :
    List ShutdownFn → Process → List Error → Process × List Error
  | [], p, errs => (p, errs)
  | fn :: rest, p, errs =>
    let p := p.record (Call.shutdown fn)
    match run fn with
    | none => Setup.stopLoop run rest p errs
    | some e => Setup.stopLoop run rest p (errs ++ [e])

/-- Modelled from the spec: the Stop method of the setup type, which azugo.go
constructs and whose methods are declared in a file that is not among the
sources.  Section 4.2: Stop invokes every registered shutdown function in
registration order, does not abort early on an individual failure, and the
errors are collected and reported, never returned; like noop.Stop it has no
result value.  The argument run gives the error each shutdown function
returns when invoked. -/
def Setup.Stop (run : ShutdownFn → Option Error) (s : Setup) (p : Process) : Process :=
  let r := Setup.stopLoop run s.shutdownFns p []
  { r.1 with reported := r.1.reported ++ r.2 }

/-- Calls appended between two call records. -/
def callsSince (before after : List Call) : List Call :=
  after.drop before.length

/-! ## Concrete inputs -/

/-- An application with one middleware and one hook of its own. -/
def app0 : App :=
  { routerOptions := { PanicHandler := PanicHandler.other 7 },
    middlewares := [Middleware.other 1],
    instrumenters := [Instrumenter.other 1],
    logBridge := 0 }

/-- A process with earlier registrations. -/
def proc0 : Process :=
  { globals := { propagator := Propagator.other 0, tracerProvider := ⟨100⟩,
                 loggerProvider := ⟨200⟩ },
    calls := [], reported := [] }

/-- A configuration with TraceLogging set. -/
def cfgLogging : Configuration := { TraceLogging := true, settings := ⟨5⟩ }

/-- A configuration with TraceLogging clear. -/
def cfgPlain : Configuration := { TraceLogging := false, settings := ⟨5⟩ }

/-- Collaborators that all succeed, with instrumentation enabled. -/
def depsOk : Deps :=
  { IsDisabled := fun _ => false,
    newTraceProvider := fun _ _ => Except.ok ⟨1⟩,
    newLogProvider := fun _ _ => Except.ok ⟨2⟩,
    setupOTelLogging := fun a => { a with logBridge := 1 } }

/-- Collaborators for which every configuration is disabled. -/
def depsDisabled : Deps := { depsOk with IsDisabled := fun _ => true }

/-- Collaborators whose tracing provider cannot be constructed. -/
def depsTraceFail : Deps :=
  { depsOk with newTraceProvider := fun _ _ => Except.error ⟨"trace exporter"⟩ }

/-- Collaborators whose logging provider cannot be constructed. -/
def depsLogFail : Deps :=
  { depsOk with newLogProvider := fun _ _ => Except.error ⟨"log exporter"⟩ }

/-- Shutdown behaviour in which the tracing provider fails to shut down. -/
def runTraceFails : ShutdownFn → Option Error
  | ShutdownFn.traceProvider _ => some ⟨"flush"⟩
  | ShutdownFn.logProvider _ => none

/-- A request whose store holds the context stored under the key "otel". -/
def requestHolding (v : Value) : RequestCtx :=
  { UserValue := fun k => if k = "otel" then v else Value.nil }

/-- A host in which context 0 belongs to a request holding context 1, and
context 1 belongs to a second request holding context 2. -/
def hostChain : Host :=
  { RequestContext := fun ctx =>
      if ctx.id = 0 then some (requestHolding (Value.context ⟨1⟩))
      else if ctx.id = 1 then some (requestHolding (Value.context ⟨2⟩))
      else none,
    otelParentSpanContext := "otel" }

/-- A host in which contexts 0 and 1 belong to one request, which holds
context 1; context 3 belongs to a request holding a value that is no context,
context 4 to a request holding nothing. -/
def hostHome : Host :=
  { RequestContext := fun ctx =>
      if ctx.id = 0 ∨ ctx.id = 1 then some (requestHolding (Value.context ⟨1⟩))
      else if ctx.id = 3 then some (requestHolding (Value.other 9))
      else if ctx.id = 4 then some (requestHolding Value.nil)
      else none,
    otelParentSpanContext := "otel" }

/-! ## Auxiliary facts -/

/-- The calls appended to a record are recovered by callsSince. -/
theorem callsSince_append (l x : List Call) : callsSince l (l ++ x) = x := by
  simp [callsSince]

/-- The loop of Stop appends one shutdown call per list entry, in list order,
keeps every returned error, and leaves the global registrations alone. -/
theorem stopLoop_spec (run : ShutdownFn → Option Error) (fns : List ShutdownFn) :
    ∀ (p : Process) (errs : List Error),
      (Setup.stopLoop run fns p errs).1.calls = p.calls ++ fns.map Call.shutdown ∧
      (Setup.stopLoop run fns p errs).2 = errs ++ fns.filterMap run ∧
      (Setup.stopLoop run fns p errs).1.globals = p.globals ∧
      (Setup.stopLoop run fns p errs).1.reported = p.reported := by
  induction fns with
  | nil => intro p errs; simp [Setup.stopLoop]
  | cons fn rest ih =>
    intro p errs
    cases hrun : run fn with
    | none =>
      have h := ih (p.record (Call.shutdown fn)) errs
      simp only [Setup.stopLoop, hrun]
      refine ⟨?_, ?_, ?_, ?_⟩
      · rw [h.1]; simp [Process.record]
      · rw [h.2.1]; simp [List.filterMap_cons, hrun]
      · rw [h.2.2.1]; rfl
      · rw [h.2.2.2]; rfl
    | some e =>
      have h := ih (p.record (Call.shutdown fn)) (errs ++ [e])
      simp only [Setup.stopLoop, hrun]
      refine ⟨?_, ?_, ?_, ?_⟩
      · rw [h.1]; simp [Process.record]
      · rw [h.2.1]; simp [List.filterMap_cons, hrun]
      · rw [h.2.2.1]; rfl
      · rw [h.2.2.2]; rfl

/-- Result of Use on an enabled configuration without TraceLogging whose
tracing provider is constructed. -/
theorem Use_plain_ok (d : Deps) (app : App) (cfg : Configuration) (opts : List Opt)
    (p : Process) (tp : TraceProvider)
    (hen : d.IsDisabled cfg = false) (htp : d.newTraceProvider app cfg = Except.ok tp)
    (hlog : cfg.TraceLogging = false) :
    Use d app (some cfg) opts p =
      { tasker := some (Tasker.setup
          { app := ((app.setPanicHandler PanicHandler.panicHandler).Use
                      (Middleware.middleware cfg opts)).Instrumentation (Instrumenter.instr opts),
            config := cfg,
            shutdownFns := [ShutdownFn.traceProvider tp] }),
        err := none,
        app := ((app.setPanicHandler PanicHandler.panicHandler).Use
                  (Middleware.middleware cfg opts)).Instrumentation (Instrumenter.instr opts),
        proc := ((p.record Call.newTraceProvider).SetTextMapPropagator
                  Propagator.newPropagator).SetTracerProvider tp } := by
  simp [Use, hen, htp, hlog]

/-- Result of Use on an enabled configuration with TraceLogging whose two
providers are constructed. -/
theorem Use_logging_ok (d : Deps) (app : App) (cfg : Configuration) (opts : List Opt)
    (p : Process) (tp : TraceProvider) (lp : LogProvider)
    (hen : d.IsDisabled cfg = false) (htp : d.newTraceProvider app cfg = Except.ok tp)
    (hlog : cfg.TraceLogging = true) (hlp : d.newLogProvider app cfg = Except.ok lp) :
    Use d app (some cfg) opts p =
      { tasker := some (Tasker.setup
          { app := (((d.setupOTelLogging app).setPanicHandler PanicHandler.panicHandler).Use
                      (Middleware.middleware cfg opts)).Instrumentation (Instrumenter.instr opts),
            config := cfg,
            shutdownFns := [ShutdownFn.traceProvider tp, ShutdownFn.logProvider lp] }),
        err := none,
        app := (((d.setupOTelLogging app).setPanicHandler PanicHandler.panicHandler).Use
                  (Middleware.middleware cfg opts)).Instrumentation (Instrumenter.instr opts),
        proc := ((((((p.record Call.newTraceProvider).record Call.newLogProvider).SetLoggerProvider
                  lp).record Call.setupOTelLogging).SetTextMapPropagator
                  Propagator.newPropagator).SetTracerProvider tp) } := by
  simp [Use, hen, htp, hlog, hlp]

/-- Result of Use when the tracing provider cannot be constructed. -/
theorem Use_trace_error (d : Deps) (app : App) (cfg : Configuration) (opts : List Opt)
    (p : Process) (e : Error)
    (hen : d.IsDisabled cfg = false) (htp : d.newTraceProvider app cfg = Except.error e) :
    Use d app (some cfg) opts p =
      { tasker := none, err := some e, app := app,
        proc := p.record Call.newTraceProvider } := by
  simp [Use, hen, htp]

/-- Result of Use when the tracing provider is constructed and the logging
provider is not. -/
theorem Use_log_error (d : Deps) (app : App) (cfg : Configuration) (opts : List Opt)
    (p : Process) (tp : TraceProvider) (e : Error)
    (hen : d.IsDisabled cfg = false) (htp : d.newTraceProvider app cfg = Except.ok tp)
    (hlog : cfg.TraceLogging = true) (hlp : d.newLogProvider app cfg = Except.error e) :
    Use d app (some cfg) opts p =
      { tasker := none, err := some e, app := app,
        proc := (p.record Call.newTraceProvider).record Call.newLogProvider } := by
  simp [Use, hen, htp, hlog, hlp]

/-! ## The disabled branch -/

/-- C1: for a non-nil configuration whose IsDisabled is true, Use returns the
noop lifecycle and a nil error, makes no collaborator call, and leaves the
global registrations, the reported errors and the application exactly as they
were; Start of the noop lifecycle returns nil for every context and its Stop
returns the state it was given. -/
theorem Use_disabled_inert (d : Deps) (app : App) (cfg : Configuration)
    (opts : List Opt) (p : Process) (hdis : d.IsDisabled cfg = true) :
    (Use d app (some cfg) opts p).tasker = some Tasker.noop ∧
    (Use d app (some cfg) opts p).err = none ∧
    callsSince p.calls (Use d app (some cfg) opts p).proc.calls = [] ∧
    (Use d app (some cfg) opts p).proc = p ∧
    (Use d app (some cfg) opts p).app = app ∧
    (∀ ctx : Context, noop.Start ctx = none) ∧
    (∀ (a : App) (q : Process), noop.Stop a q = (a, q)) := by
  have hU : Use d app (some cfg) opts p =
      { tasker := some Tasker.noop, err := none, app := app, proc := p } := by
    simp [Use, hdis]
  rw [hU]
  refine ⟨rfl, rfl, ?_, rfl, rfl, fun _ => rfl, fun _ _ => rfl⟩
  simp [callsSince]

/-- Witness of C1 on the disabled collaborators. -/
theorem Use_disabled_inert_witness :
    depsDisabled.IsDisabled cfgLogging = true ∧
    (Use depsDisabled app0 (some cfgLogging) [⟨3⟩] proc0).tasker = some Tasker.noop ∧
    (Use depsDisabled app0 (some cfgLogging) [⟨3⟩] proc0).proc = proc0 ∧
    (Use depsDisabled app0 (some cfgLogging) [⟨3⟩] proc0).app = app0 :=
  have h := Use_disabled_inert depsDisabled app0 cfgLogging [⟨3⟩] proc0 rfl
  ⟨rfl, h.1, h.2.2.2.1, h.2.2.2.2.1⟩

/-! ## FromContext -/

/-- C2: FromContext returns the stored value when the context resolves to a
request whose store holds a context under otelParentSpanContext, and returns
its argument when no request is resolvable, when the store holds nil under the
key, and when it holds a value that is no context; a result different from the
argument is always such a stored context.  FromContext is a total function. -/
theorem FromContext_cases (h : Host) (ctx : Context) :
    (∀ c sc, h.RequestContext ctx = some c →
        c.UserValue h.otelParentSpanContext = Value.context sc →
        FromContext h ctx = sc) ∧
    (h.RequestContext ctx = none → FromContext h ctx = ctx) ∧
    (∀ c, h.RequestContext ctx = some c →
        c.UserValue h.otelParentSpanContext = Value.nil → FromContext h ctx = ctx) ∧
    (∀ c t, h.RequestContext ctx = some c →
        c.UserValue h.otelParentSpanContext = Value.other t → FromContext h ctx = ctx) ∧
    (FromContext h ctx ≠ ctx → ∃ c sc, h.RequestContext ctx = some c ∧
        c.UserValue h.otelParentSpanContext = Value.context sc ∧
        FromContext h ctx = sc) := by
  refine ⟨?_, ?_, ?_, ?_, ?_⟩
  · intro c sc hc hv
    simp [FromContext, hc, hv]
  · intro hc
    simp [FromContext, hc]
  · intro c hc hv
    simp [FromContext, hc, hv]
  · intro c t hc hv
    simp [FromContext, hc, hv]
  · intro hne
    cases hc : h.RequestContext ctx with
    | none => exact absurd (by simp [FromContext, hc]) hne
    | some c =>
      cases hv : c.UserValue h.otelParentSpanContext with
      | nil => exact absurd (by simp [FromContext, hc, hv]) hne
      | other t => exact absurd (by simp [FromContext, hc, hv]) hne
      | context sc => exact ⟨c, sc, rfl, hv, by simp [FromContext, hc, hv]⟩

/-- Witness of C2: the four cases on one concrete host. -/
theorem FromContext_cases_witness :
    FromContext hostHome ⟨0⟩ = ⟨1⟩ ∧ FromContext hostHome ⟨7⟩ = ⟨7⟩ ∧
    FromContext hostHome ⟨4⟩ = ⟨4⟩ ∧ FromContext hostHome ⟨3⟩ = ⟨3⟩ :=
  have h0 := FromContext_cases hostHome ⟨0⟩
  have h7 := FromContext_cases hostHome ⟨7⟩
  have h4 := FromContext_cases hostHome ⟨4⟩
  have h3 := FromContext_cases hostHome ⟨3⟩
  ⟨h0.1 (requestHolding (Value.context ⟨1⟩)) ⟨1⟩ rfl rfl,
   h7.2.1 rfl,
   h4.2.2.1 (requestHolding Value.nil) rfl rfl,
   h3.2.2.2.1 (requestHolding (Value.other 9)) 9 rfl rfl⟩

/-! ## The enabled branch: what the session holds -/

/-- C3: on an enabled configuration whose tracing provider is constructed, the
session returned by Use holds exactly the tracing shutdown when TraceLogging is
false, and exactly the tracing shutdown followed by the logging shutdown when
TraceLogging is true and the logging provider is constructed. -/
theorem Use_shutdown_list (d : Deps) (app : App) (cfg : Configuration)
    (opts : List Opt) (p : Process) (tp : TraceProvider)
    (hen : d.IsDisabled cfg = false)
    (htp : d.newTraceProvider app cfg = Except.ok tp) :
    (cfg.TraceLogging = false →
      ∃ s, (Use d app (some cfg) opts p).tasker = some (Tasker.setup s) ∧
        (Use d app (some cfg) opts p).err = none ∧
        s.shutdownFns = [ShutdownFn.traceProvider tp]) ∧
    (∀ lp, cfg.TraceLogging = true → d.newLogProvider app cfg = Except.ok lp →
      ∃ s, (Use d app (some cfg) opts p).tasker = some (Tasker.setup s) ∧
        (Use d app (some cfg) opts p).err = none ∧
        s.shutdownFns = [ShutdownFn.traceProvider tp, ShutdownFn.logProvider lp]) := by
  constructor
  · intro hlog
    rw [Use_plain_ok d app cfg opts p tp hen htp hlog]
    exact ⟨_, rfl, rfl, rfl⟩
  · intro lp hlog hlp
    rw [Use_logging_ok d app cfg opts p tp lp hen htp hlog hlp]
    exact ⟨_, rfl, rfl, rfl⟩

/-- Witness of C3 with and without TraceLogging. -/
theorem Use_shutdown_list_witness :
    depsOk.IsDisabled cfgLogging = false ∧
    depsOk.newTraceProvider app0 cfgLogging = Except.ok ⟨1⟩ ∧
    depsOk.newLogProvider app0 cfgLogging = Except.ok ⟨2⟩ ∧
    (∃ s, (Use depsOk app0 (some cfgLogging) [] proc0).tasker = some (Tasker.setup s) ∧
      (Use depsOk app0 (some cfgLogging) [] proc0).err = none ∧
      s.shutdownFns = [ShutdownFn.traceProvider ⟨1⟩, ShutdownFn.logProvider ⟨2⟩]) ∧
    (∃ s, (Use depsOk app0 (some cfgPlain) [] proc0).tasker = some (Tasker.setup s) ∧
      (Use depsOk app0 (some cfgPlain) [] proc0).err = none ∧
      s.shutdownFns = [ShutdownFn.traceProvider ⟨1⟩]) :=
  ⟨rfl, rfl, rfl,
   (Use_shutdown_list depsOk app0 cfgLogging [] proc0 ⟨1⟩ rfl rfl).2 ⟨2⟩ rfl rfl,
   (Use_shutdown_list depsOk app0 cfgPlain [] proc0 ⟨1⟩ rfl rfl).1 rfl⟩

/-- C4: for the session returned by a successful enabled Use, Stop (as the
spec describes it) invokes exactly the functions of the shutdown list, each
once and in list order with the tracing shutdown first, whatever errors they
return; the errors go to the report and the global registrations stay
untouched. -/
theorem Use_Stop_invokes_all (d : Deps) (app : App) (cfg : Configuration)
    (opts : List Opt) (p : Process) (tp : TraceProvider)
    (hen : d.IsDisabled cfg = false)
    (htp : d.newTraceProvider app cfg = Except.ok tp)
    (hlp : cfg.TraceLogging = true → ∃ lp, d.newLogProvider app cfg = Except.ok lp) :
    ∃ s, (Use d app (some cfg) opts p).tasker = some (Tasker.setup s) ∧
      (s.shutdownFns = [ShutdownFn.traceProvider tp] ∨
        ∃ lp, s.shutdownFns = [ShutdownFn.traceProvider tp, ShutdownFn.logProvider lp]) ∧
      ∀ (run : ShutdownFn → Option Error) (q : Process),
        callsSince q.calls (Setup.Stop run s q).calls = s.shutdownFns.map Call.shutdown ∧
        (Setup.Stop run s q).reported = q.reported ++ s.shutdownFns.filterMap run ∧
        (Setup.Stop run s q).globals = q.globals := by
  have hstop : ∀ (s : Setup) (run : ShutdownFn → Option Error) (q : Process),
      callsSince q.calls (Setup.Stop run s q).calls = s.shutdownFns.map Call.shutdown ∧
      (Setup.Stop run s q).reported = q.reported ++ s.shutdownFns.filterMap run ∧
      (Setup.Stop run s q).globals = q.globals := by
    intro s run q
    have h := stopLoop_spec run s.shutdownFns q []
    refine ⟨?_, ?_, ?_⟩
    · show callsSince q.calls (Setup.stopLoop run s.shutdownFns q []).1.calls = _
      rw [h.1, callsSince_append]
    · show (Setup.stopLoop run s.shutdownFns q []).1.reported ++
        (Setup.stopLoop run s.shutdownFns q []).2 = _
      rw [h.2.2.2, h.2.1]; simp
    · show (Setup.stopLoop run s.shutdownFns q []).1.globals = _
      exact h.2.2.1
  cases hlog : cfg.TraceLogging with
  | false =>
    rw [Use_plain_ok d app cfg opts p tp hen htp hlog]
    exact ⟨_, rfl, Or.inl rfl, hstop _⟩
  | true =>
    obtain ⟨lp, hlp2⟩ := hlp hlog
    rw [Use_logging_ok d app cfg opts p tp lp hen htp hlog hlp2]
    exact ⟨_, rfl, Or.inr ⟨lp, rfl⟩, hstop _⟩

/-- Witness of C4: both providers constructed, the tracing shutdown fails, and
the logging shutdown is invoked all the same. -/
theorem Use_Stop_invokes_all_witness :
    depsOk.IsDisabled cfgLogging = false ∧
    depsOk.newTraceProvider app0 cfgLogging = Except.ok ⟨1⟩ ∧
    (∃ s, (Use depsOk app0 (some cfgLogging) [] proc0).tasker = some (Tasker.setup s) ∧
      (s.shutdownFns = [ShutdownFn.traceProvider ⟨1⟩] ∨
        ∃ lp, s.shutdownFns = [ShutdownFn.traceProvider ⟨1⟩, ShutdownFn.logProvider lp]) ∧
      ∀ (run : ShutdownFn → Option Error) (q : Process),
        callsSince q.calls (Setup.Stop run s q).calls = s.shutdownFns.map Call.shutdown ∧
        (Setup.Stop run s q).reported = q.reported ++ s.shutdownFns.filterMap run ∧
        (Setup.Stop run s q).globals = q.globals) ∧
    (Setup.Stop runTraceFails
        { app := app0, config := cfgLogging,
          shutdownFns := [ShutdownFn.traceProvider ⟨1⟩, ShutdownFn.logProvider ⟨2⟩] }
        proc0).calls =
      [Call.shutdown (ShutdownFn.traceProvider ⟨1⟩),
       Call.shutdown (ShutdownFn.logProvider ⟨2⟩)] :=
  ⟨rfl, rfl,
   Use_Stop_invokes_all depsOk app0 cfgLogging [] proc0 ⟨1⟩ rfl rfl (fun _ => ⟨⟨2⟩, rfl⟩),
   by decide⟩

/-! ## The enabled branch: construction failures -/

/-- C5: when newTraceProvider returns an error on an enabled configuration,
Use returns a nil lifecycle and that very error; the only collaborator call is
newTraceProvider (so newLogProvider is not called), and the global
registrations and the application are as before. -/
theorem Use_trace_failure (d : Deps) (app : App) (cfg : Configuration)
    (opts : List Opt) (p : Process) (e : Error)
    (hen : d.IsDisabled cfg = false)
    (htp : d.newTraceProvider app cfg = Except.error e) :
    (Use d app (some cfg) opts p).tasker = none ∧
    (Use d app (some cfg) opts p).err = some e ∧
    callsSince p.calls (Use d app (some cfg) opts p).proc.calls = [Call.newTraceProvider] ∧
    (Use d app (some cfg) opts p).proc.globals = p.globals ∧
    (Use d app (some cfg) opts p).app = app := by
  rw [Use_trace_error d app cfg opts p e hen htp]
  refine ⟨rfl, rfl, ?_, rfl, rfl⟩
  show callsSince p.calls (p.calls ++ [Call.newTraceProvider]) = _
  exact callsSince_append _ _

/-- Witness of C5 on collaborators whose tracing provider fails. -/
theorem Use_trace_failure_witness :
    depsTraceFail.IsDisabled cfgLogging = false ∧
    depsTraceFail.newTraceProvider app0 cfgLogging = Except.error ⟨"trace exporter"⟩ ∧
    (Use depsTraceFail app0 (some cfgLogging) [] proc0).tasker = none ∧
    (Use depsTraceFail app0 (some cfgLogging) [] proc0).err = some ⟨"trace exporter"⟩ ∧
    (Use depsTraceFail app0 (some cfgLogging) [] proc0).proc.globals = proc0.globals ∧
    (Use depsTraceFail app0 (some cfgLogging) [] proc0).app = app0 :=
  have h := Use_trace_failure depsTraceFail app0 cfgLogging [] proc0 ⟨"trace exporter"⟩ rfl rfl
  ⟨rfl, rfl, h.1, h.2.1, h.2.2.2.1, h.2.2.2.2⟩

/-- C6: when TraceLogging is set, the tracing provider is constructed and
newLogProvider returns an error, Use returns a nil lifecycle and that very
error; the collaborator calls are the two constructors and nothing else, so no
shutdown function is invoked, and the global registrations and the
application are as before. -/
theorem Use_log_failure (d : Deps) (app : App) (cfg : Configuration)
    (opts : List Opt) (p : Process) (tp : TraceProvider) (e : Error)
    (hen : d.IsDisabled cfg = false)
    (htp : d.newTraceProvider app cfg = Except.ok tp)
    (hlog : cfg.TraceLogging = true)
    (hlp : d.newLogProvider app cfg = Except.error e) :
    (Use d app (some cfg) opts p).tasker = none ∧
    (Use d app (some cfg) opts p).err = some e ∧
    callsSince p.calls (Use d app (some cfg) opts p).proc.calls =
      [Call.newTraceProvider, Call.newLogProvider] ∧
    (∀ fn, Call.shutdown fn ∉ callsSince p.calls (Use d app (some cfg) opts p).proc.calls) ∧
    (Use d app (some cfg) opts p).proc.globals = p.globals ∧
    (Use d app (some cfg) opts p).app = app := by
  rw [Use_log_error d app cfg opts p tp e hen htp hlog hlp]
  have hc : callsSince p.calls
      ((p.record Call.newTraceProvider).record Call.newLogProvider).calls =
      [Call.newTraceProvider, Call.newLogProvider] := by
    show callsSince p.calls ((p.calls ++ [Call.newTraceProvider]) ++ [Call.newLogProvider]) = _
    rw [List.append_assoc]
    exact callsSince_append _ _
  refine ⟨rfl, rfl, hc, ?_, rfl, rfl⟩
  intro fn
  show Call.shutdown fn ∉ callsSince p.calls
    ((p.record Call.newTraceProvider).record Call.newLogProvider).calls
  rw [hc]
  simp

/-- Witness of C6 on collaborators whose logging provider fails. -/
theorem Use_log_failure_witness :
    depsLogFail.IsDisabled cfgLogging = false ∧
    depsLogFail.newTraceProvider app0 cfgLogging = Except.ok ⟨1⟩ ∧
    cfgLogging.TraceLogging = true ∧
    depsLogFail.newLogProvider app0 cfgLogging = Except.error ⟨"log exporter"⟩ ∧
    (Use depsLogFail app0 (some cfgLogging) [] proc0).err = some ⟨"log exporter"⟩ ∧
    (Use depsLogFail app0 (some cfgLogging) [] proc0).proc.globals = proc0.globals ∧
    (Use depsLogFail app0 (some cfgLogging) [] proc0).app = app0 :=
  have h := Use_log_failure depsLogFail app0 cfgLogging [] proc0 ⟨1⟩ ⟨"log exporter"⟩
    rfl rfl rfl rfl
  ⟨rfl, rfl, rfl, rfl, h.2.1, h.2.2.2.2.1, h.2.2.2.2.2⟩

/-- C7, as stated, fails: with the logging provider failing after the tracing
provider was constructed, Use hands back no session at all, so none that
holds the tracing shutdown. -/
theorem Use_log_failure_no_partial_session :
    depsLogFail.IsDisabled cfgLogging = false ∧
    cfgLogging.TraceLogging = true ∧
    depsLogFail.newTraceProvider app0 cfgLogging = Except.ok ⟨1⟩ ∧
    depsLogFail.newLogProvider app0 cfgLogging = Except.error ⟨"log exporter"⟩ ∧
    ¬ ∃ s, (Use depsLogFail app0 (some cfgLogging) [] proc0).tasker = some (Tasker.setup s) ∧
        ShutdownFn.traceProvider ⟨1⟩ ∈ s.shutdownFns := by
  refine ⟨rfl, rfl, rfl, rfl, ?_⟩
  rintro ⟨s, hs, _⟩
  have hnone : (Use depsLogFail app0 (some cfgLogging) [] proc0).tasker = none := by decide
  rw [hnone] at hs
  cases hs

/-- C7 amended: when TraceLogging is set, the tracing provider is constructed
and newLogProvider fails, the lifecycle Use returns is nil, together with the
error; no session, partial or complete, reaches the caller. -/
theorem Use_log_failure_returns_nil (d : Deps) (app : App) (cfg : Configuration)
    (opts : List Opt) (p : Process) (tp : TraceProvider) (e : Error)
    (hen : d.IsDisabled cfg = false)
    (htp : d.newTraceProvider app cfg = Except.ok tp)
    (hlog : cfg.TraceLogging = true)
    (hlp : d.newLogProvider app cfg = Except.error e) :
    (Use d app (some cfg) opts p).tasker = none ∧
    (Use d app (some cfg) opts p).err = some e ∧
    ∀ s, (Use d app (some cfg) opts p).tasker ≠ some (Tasker.setup s) := by
  rw [Use_log_error d app cfg opts p tp e hen htp hlog hlp]
  refine ⟨rfl, rfl, ?_⟩
  intro s hs
  cases hs

/-- Witness of the amended C7. -/
theorem Use_log_failure_returns_nil_witness :
    depsLogFail.IsDisabled cfgLogging = false ∧
    depsLogFail.newTraceProvider app0 cfgLogging = Except.ok ⟨1⟩ ∧
    cfgLogging.TraceLogging = true ∧
    depsLogFail.newLogProvider app0 cfgLogging = Except.error ⟨"log exporter"⟩ ∧
    (Use depsLogFail app0 (some cfgLogging) [⟨3⟩] proc0).tasker = none :=
  ⟨rfl, rfl, rfl, rfl,
   (Use_log_failure_returns_nil depsLogFail app0 cfgLogging [⟨3⟩] proc0 ⟨1⟩ ⟨"log exporter"⟩
      rfl rfl rfl rfl).1⟩

/-! ## The enabled branch: global registrations -/

/-- C8: on an enabled configuration whose attempted constructions succeed,
after Use the global tracer provider is the constructed tracing provider and
the global propagator is the value of newPropagator.  Without TraceLogging the
global logger provider keeps its earlier value and newTraceProvider is the only
collaborator call (neither newLogProvider nor setupOTelLogging is called); with
TraceLogging the global logger provider is the constructed logging provider. -/
theorem Use_globals (d : Deps) (app : App) (cfg : Configuration)
    (opts : List Opt) (p : Process) (tp : TraceProvider)
    (hen : d.IsDisabled cfg = false)
    (htp : d.newTraceProvider app cfg = Except.ok tp) :
    (cfg.TraceLogging = false →
      (Use d app (some cfg) opts p).err = none ∧
      (Use d app (some cfg) opts p).proc.globals.tracerProvider = tp ∧
      (Use d app (some cfg) opts p).proc.globals.propagator = Propagator.newPropagator ∧
      (Use d app (some cfg) opts p).proc.globals.loggerProvider = p.globals.loggerProvider ∧
      callsSince p.calls (Use d app (some cfg) opts p).proc.calls = [Call.newTraceProvider] ∧
      Call.newLogProvider ∉ callsSince p.calls (Use d app (some cfg) opts p).proc.calls ∧
      Call.setupOTelLogging ∉ callsSince p.calls (Use d app (some cfg) opts p).proc.calls) ∧
    (∀ lp, cfg.TraceLogging = true → d.newLogProvider app cfg = Except.ok lp →
      (Use d app (some cfg) opts p).err = none ∧
      (Use d app (some cfg) opts p).proc.globals.tracerProvider = tp ∧
      (Use d app (some cfg) opts p).proc.globals.propagator = Propagator.newPropagator ∧
      (Use d app (some cfg) opts p).proc.globals.loggerProvider = lp) := by
  constructor
  · intro hlog
    rw [Use_plain_ok d app cfg opts p tp hen htp hlog]
    have hc : callsSince p.calls
        (((p.record Call.newTraceProvider).SetTextMapPropagator
          Propagator.newPropagator).SetTracerProvider tp).calls = [Call.newTraceProvider] := by
      show callsSince p.calls (p.calls ++ [Call.newTraceProvider]) = _
      exact callsSince_append _ _
    refine ⟨rfl, rfl, rfl, rfl, hc, ?_, ?_⟩
    · show Call.newLogProvider ∉ callsSince p.calls
        (((p.record Call.newTraceProvider).SetTextMapPropagator
          Propagator.newPropagator).SetTracerProvider tp).calls
      rw [hc]; simp
    · show Call.setupOTelLogging ∉ callsSince p.calls
        (((p.record Call.newTraceProvider).SetTextMapPropagator
          Propagator.newPropagator).SetTracerProvider tp).calls
      rw [hc]; simp
  · intro lp hlog hlp
    rw [Use_logging_ok d app cfg opts p tp lp hen htp hlog hlp]
    exact ⟨rfl, rfl, rfl, rfl⟩

/-- Witness of C8 with and without TraceLogging. -/
theorem Use_globals_witness :
    depsOk.IsDisabled cfgPlain = false ∧
    depsOk.newTraceProvider app0 cfgPlain = Except.ok ⟨1⟩ ∧
    (Use depsOk app0 (some cfgPlain) [] proc0).proc.globals.tracerProvider = ⟨1⟩ ∧
    (Use depsOk app0 (some cfgPlain) [] proc0).proc.globals.propagator =
      Propagator.newPropagator ∧
    (Use depsOk app0 (some cfgPlain) [] proc0).proc.globals.loggerProvider = ⟨200⟩ ∧
    (Use depsOk app0 (some cfgLogging) [] proc0).proc.globals.loggerProvider = ⟨2⟩ :=
  have h := (Use_globals depsOk app0 cfgPlain [] proc0 ⟨1⟩ rfl rfl).1 rfl
  have g := (Use_globals depsOk app0 cfgLogging [] proc0 ⟨1⟩ rfl rfl).2 ⟨2⟩ rfl rfl
  ⟨rfl, rfl, h.2.1, h.2.2.1, h.2.2.2.1, g.2.2.2⟩

/-! ## FromContext applied twice -/

/-- C9, as stated, fails: in hostChain the context stored for context 0
belongs to a second request with a stored context of its own, and a second
application of FromContext moves on to it. -/
theorem FromContext_not_idempotent :
    FromContext hostChain ⟨0⟩ = ⟨1⟩ ∧
    FromContext hostChain (FromContext hostChain ⟨0⟩) = ⟨2⟩ ∧
    FromContext hostChain (FromContext hostChain ⟨0⟩) ≠ FromContext hostChain ⟨0⟩ := by
  decide

/-- C9 amended: with the stores fixed, two calls on one context agree, and
FromContext applied to its own result returns that result again provided
the context stored for the request (if there is one) resolves to no request or
to that same request. -/
theorem FromContext_idempotent_of_home (h : Host) (ctx : Context)
    (hhome : ∀ c sc, h.RequestContext ctx = some c →
      c.UserValue h.otelParentSpanContext = Value.context sc →
      h.RequestContext sc = none ∨ h.RequestContext sc = some c) :
    FromContext h ctx = FromContext h ctx ∧
    FromContext h (FromContext h ctx) = FromContext h ctx := by
  refine ⟨rfl, ?_⟩
  cases hc : h.RequestContext ctx with
  | none =>
    have h1 : FromContext h ctx = ctx := by simp [FromContext, hc]
    rw [h1, h1]
  | some c =>
    cases hv : c.UserValue h.otelParentSpanContext with
    | nil =>
      have h1 : FromContext h ctx = ctx := by simp [FromContext, hc, hv]
      rw [h1, h1]
    | other t =>
      have h1 : FromContext h ctx = ctx := by simp [FromContext, hc, hv]
      rw [h1, h1]
    | context sc =>
      have h1 : FromContext h ctx = sc := by simp [FromContext, hc, hv]
      rw [h1]
      rcases hhome c sc hc hv with hn | hs
      · simp [FromContext, hn]
      · simp [FromContext, hs, hv]

/-- Witness of the amended C9: in hostHome the context stored for context 0
resolves to the request of context 0. -/
theorem FromContext_idempotent_of_home_witness :
    FromContext hostHome ⟨0⟩ = ⟨1⟩ ∧
    FromContext hostHome (FromContext hostHome ⟨0⟩) = FromContext hostHome ⟨0⟩ :=
  ⟨by decide,
   (FromContext_idempotent_of_home hostHome ⟨0⟩ (by
      intro c sc hc hv
      have hc0 : hostHome.RequestContext ⟨0⟩ = some (requestHolding (Value.context ⟨1⟩)) := rfl
      rw [hc0] at hc
      cases hc
      have hv0 : (requestHolding (Value.context ⟨1⟩)).UserValue hostHome.otelParentSpanContext
          = Value.context ⟨1⟩ := rfl
      rw [hv0] at hv
      cases hv
      exact Or.inr rfl)).2⟩

/-! ## The nil configuration -/

/-- C10: Use with a nil configuration is Use with the configuration whose
TraceLogging is true and whose other fields are zero: the returned pair, the
collaborator calls, the global registrations and the application coincide. -/
theorem Use_nil_config (d : Deps) (app : App) (opts : List Opt) (p : Process) :
    Use d app none opts p =
      Use d app (some { TraceLogging := true, settings := Settings.zero }) opts p := by
  rfl

end Opentelemetry
